import Mathlib

/-!
# XOR trading platform — shallow embedding and verification

This file embeds the core runtime components of the XOR trading platform
(risk engine, kill switch, grid and DCA strategies, order service, event
bus) as executable Lean definitions and proves properties of them.

Conventions of the embedding:
* Python floats are modelled as rationals (`ℚ`); the numeric scenarios the
  properties use are exact in both representations.
* Python dicts keyed by strings are association lists with replace-on-insert
  semantics; only length, membership and lookup are used by the embedded code.
* Wall-clock timestamps (`datetime.utcnow()`) are modelled as natural-number
  parameters where the code stores them, and omitted from records where no
  property reads them.
* Python f-string numeric formatting (`:.1f`, `:.2f`) is not reproduced; the
  message skeletons around the numbers are kept verbatim.
* A Python function that can raise returns `Except`; the raised exception
  class is tracked by the `PyError` inductive.
-/

/-! ## Risk engine (risk-engine/engine/core.py) -/

/-- Risk limits configuration (`RiskLimits` dataclass). `max_leverage` is an
`int` in the source; it is kept as `ℚ` because the source compares it against
the float `leverage` argument. -/
structure RiskLimits where
  max_drawdown_percent : ℚ := 10
  max_position_size_percent : ℚ := 5
  daily_loss_limit_percent : ℚ := 3
  max_leverage : ℚ := 10
  max_open_positions : Nat := 10
  max_correlation : ℚ := 7/10
  max_exposure_per_asset : ℚ := 20
deriving DecidableEq

/-- Risk metrics for a single position (`PositionRisk` dataclass). -/
structure PositionRisk where
  symbol : String
  side : String
  size : ℚ
  entry_price : ℚ
  current_price : ℚ
  leverage : ℚ
  unrealized_pnl : ℚ
  unrealized_pnl_percent : ℚ
  liquidation_distance_percent : ℚ := 0
deriving DecidableEq

/-- Portfolio-level risk metrics (`PortfolioRisk` dataclass, timestamp
omitted). -/
structure PortfolioRisk where
  total_equity : ℚ
  total_exposure : ℚ
  total_unrealized_pnl : ℚ
  total_realized_pnl_today : ℚ
  current_drawdown_percent : ℚ
  max_drawdown_percent : ℚ
  open_positions : Nat
  daily_pnl_percent : ℚ
deriving DecidableEq

/-- Mutable state of `RiskEngine.__init__`. -/
structure RiskEngine where
  limits : RiskLimits := {}
  peak_equity : ℚ := 0
  starting_equity_today : ℚ := 0
  realized_pnl_today : ℚ := 0
  positions : List (String × PositionRisk) := []
  last_reset_date : Option Nat := none
  is_killed : Bool := false
  kill_reason : Option String := none
deriving DecidableEq

/-- Result dict of `validate_order`: `{"valid": …, "reason": …}`. -/
structure ValidationResult where
  valid : Bool
  reason : Option String
deriving DecidableEq

/-- `symbol in self.positions` for the dict modelled as an association list. -/
def dictContains (d : List (String × PositionRisk)) (k : String) : Bool :=
  d.any (fun kv => kv.fst == k)

/-- Dict insertion: replace the binding in place if the key exists, else
append (Python dicts preserve insertion order). -/
def dictInsert (d : List (String × PositionRisk)) (k : String) (v : PositionRisk) :
    List (String × PositionRisk) :=
  match d with
  | [] => [(k, v)]
  | kv :: rest => if kv.fst == k then (k, v) :: rest else kv :: dictInsert rest k v

/-- Dict deletion (`del self.positions[symbol]`). -/
def dictErase (d : List (String × PositionRisk)) (k : String) :
    List (String × PositionRisk) :=
  match d with
  | [] => []
  | kv :: rest => if kv.fst == k then rest else kv :: dictErase rest k

/-- Python string interpolation of an `Optional[str]`: `None` prints as
`"None"`. -/
def pyOptStr : Option String → String
  | some s => s
  | none => "None"

/-- `RiskEngine._check_daily_loss_exceeded`. -/
def RiskEngine.check_daily_loss_exceeded (s : RiskEngine) : Bool :=
  if s.starting_equity_today = 0 then false
  else
    let current_equity := s.starting_equity_today + s.realized_pnl_today
    let daily_loss_pct := (s.starting_equity_today - current_equity) / s.starting_equity_today * 100
    daily_loss_pct ≥ s.limits.daily_loss_limit_percent

/-- `RiskEngine._check_max_drawdown_exceeded`. -/
def RiskEngine.check_max_drawdown_exceeded (s : RiskEngine) (current_equity : ℚ) : Bool :=
  if s.peak_equity = 0 then false
  else
    let current_dd := (s.peak_equity - current_equity) / s.peak_equity * 100
    current_dd ≥ s.limits.max_drawdown_percent

/-- `RiskEngine.validate_order`. The method reads but never writes engine
state, so it is embedded as a pure function of the state. -/
def RiskEngine.validate_order (s : RiskEngine) (symbol _side : String)
    (quantity price : ℚ) (leverage : ℚ := 1) (portfolio_value : ℚ := 0) :
    ValidationResult :=
  if s.is_killed then
    ⟨false, some ("Kill switch active: " ++ pyOptStr s.kill_reason)⟩
  else if leverage > s.limits.max_leverage then
    ⟨false, some ("Leverage " ++ toString leverage ++ "x exceeds max "
        ++ toString s.limits.max_leverage ++ "x")⟩
  else
    let order_value := quantity * price
    -- `(order_value / portfolio_value) * 100 if portfolio_value else 0`
    let position_size_percent :=
      if portfolio_value ≠ 0 then order_value / portfolio_value * 100 else 0
    if position_size_percent > s.limits.max_position_size_percent then
      ⟨false, some ("Position size " ++ toString position_size_percent
          ++ "% exceeds max " ++ toString s.limits.max_position_size_percent ++ "%")⟩
    else if s.positions.length ≥ s.limits.max_open_positions ∧
        ¬ dictContains s.positions symbol then
      ⟨false, some ("Max open positions (" ++ toString s.limits.max_open_positions
          ++ ") reached")⟩
    else if s.check_daily_loss_exceeded then
      ⟨false, some ("Daily loss limit (" ++ toString s.limits.daily_loss_limit_percent
          ++ "%) exceeded")⟩
    else if s.check_max_drawdown_exceeded portfolio_value then
      ⟨false, some ("Max drawdown (" ++ toString s.limits.max_drawdown_percent
          ++ "%) exceeded")⟩
    else
      ⟨true, none⟩

/-- `RiskEngine.update_position`. -/
def RiskEngine.update_position (s : RiskEngine) (symbol side : String)
    (size entry_price current_price : ℚ) (leverage : ℚ := 1) : RiskEngine :=
  if size = 0 then
    { s with positions := dictErase s.positions symbol }
  else
    let unrealized_pnl :=
      if side = "long" then (current_price - entry_price) * size
      else (entry_price - current_price) * size
    -- In `ℚ`, division by zero yields 0 where Python would raise
    -- ZeroDivisionError; no property evaluates that case.
    let unrealized_pnl_percent := unrealized_pnl / (entry_price * size) * 100
    let pr : PositionRisk :=
      { symbol := symbol, side := side, size := size,
        entry_price := entry_price, current_price := current_price,
        leverage := leverage, unrealized_pnl := unrealized_pnl,
        unrealized_pnl_percent := unrealized_pnl_percent }
    { s with positions := dictInsert s.positions symbol pr }

/-- `RiskEngine.calculate_portfolio_risk`: updates `peak_equity` and returns a
snapshot. -/
def RiskEngine.calculate_portfolio_risk (s : RiskEngine) (total_equity : ℚ) :
    RiskEngine × PortfolioRisk :=
  let s := if total_equity > s.peak_equity then { s with peak_equity := total_equity } else s
  let current_dd :=
    if s.peak_equity > 0 then (s.peak_equity - total_equity) / s.peak_equity * 100 else 0
  let total_unrealized := (s.positions.map (fun kv => kv.snd.unrealized_pnl)).sum
  let total_exposure :=
    (s.positions.map (fun kv => kv.snd.size * kv.snd.current_price * kv.snd.leverage)).sum
  let daily_pnl :=
    if s.starting_equity_today > 0 then
      (total_equity - s.starting_equity_today) / s.starting_equity_today * 100
    else 0
  (s, { total_equity := total_equity,
        total_exposure := total_exposure,
        total_unrealized_pnl := total_unrealized,
        total_realized_pnl_today := s.realized_pnl_today,
        current_drawdown_percent := current_dd,
        max_drawdown_percent := s.limits.max_drawdown_percent,
        open_positions := s.positions.length,
        daily_pnl_percent := daily_pnl })

/-- `RiskEngine.trigger_kill_switch`. -/
def RiskEngine.trigger_kill_switch (s : RiskEngine) (reason : String) : RiskEngine :=
  { s with is_killed := true, kill_reason := some reason }

/-- `RiskEngine.reset_kill_switch`. The source takes no confirmation code. -/
def RiskEngine.reset_kill_switch (s : RiskEngine) : RiskEngine :=
  { s with is_killed := false, kill_reason := none }

/-- `RiskEngine.reset_daily_tracking` (the stored date is a parameter). -/
def RiskEngine.reset_daily_tracking (s : RiskEngine) (current_equity : ℚ)
    (today : Nat) : RiskEngine :=
  { s with starting_equity_today := current_equity,
           realized_pnl_today := 0,
           last_reset_date := some today }

/-- One public operation on a `RiskEngine` instance, with its arguments. -/
inductive RiskOp where
  | validateOrder (symbol side : String) (quantity price leverage portfolio_value : ℚ)
  | updatePosition (symbol side : String) (size entry_price current_price leverage : ℚ)
  | calculatePortfolioRisk (total_equity : ℚ)
  | resetDailyTracking (current_equity : ℚ) (today : Nat)
  | triggerKillSwitch (reason : String)
  | resetKillSwitch
deriving DecidableEq

/-- State transition of one public operation (`validate_order` reads but does
not write the state). -/
def RiskEngine.step (s : RiskEngine) : RiskOp → RiskEngine
  | .validateOrder _ _ _ _ _ _ => s
  | .updatePosition symbol side size entry current leverage =>
      s.update_position symbol side size entry current leverage
  | .calculatePortfolioRisk total_equity => (s.calculate_portfolio_risk total_equity).fst
  | .resetDailyTracking e today => s.reset_daily_tracking e today
  | .triggerKillSwitch reason => s.trigger_kill_switch reason
  | .resetKillSwitch => s.reset_kill_switch

/-- Run a sequence of public operations. -/
def RiskEngine.run (s : RiskEngine) : List RiskOp → RiskEngine
  | [] => s
  | op :: ops => (s.step op).run ops

/-! ### Spec-side description of `validate_order` (section 4.5 of the spec):
an ordered list of checks, rejecting with the first failure. -/

/-- The six checks of spec §4.5 in their stated order, each as a failure
condition paired with the rejection message. -/
def specValidationChecks (s : RiskEngine) (symbol : String)
    (quantity price leverage portfolio_value : ℚ) : List (Bool × String) :=
  [ (s.is_killed, "Kill switch active: " ++ pyOptStr s.kill_reason),
    (decide (leverage > s.limits.max_leverage),
      "Leverage " ++ toString leverage ++ "x exceeds max "
        ++ toString s.limits.max_leverage ++ "x"),
    (decide ((if portfolio_value ≠ 0 then quantity * price / portfolio_value * 100 else 0)
        > s.limits.max_position_size_percent),
      "Position size "
        ++ toString (if portfolio_value ≠ 0 then quantity * price / portfolio_value * 100 else 0)
        ++ "% exceeds max " ++ toString s.limits.max_position_size_percent ++ "%"),
    (decide (s.positions.length ≥ s.limits.max_open_positions) && ! dictContains s.positions symbol,
      "Max open positions (" ++ toString s.limits.max_open_positions ++ ") reached"),
    (s.check_daily_loss_exceeded,
      "Daily loss limit (" ++ toString s.limits.daily_loss_limit_percent ++ "%) exceeded"),
    (s.check_max_drawdown_exceeded portfolio_value,
      "Max drawdown (" ++ toString s.limits.max_drawdown_percent ++ "%) exceeded") ]

/-- First-failure semantics: the result is the rejection of the first check
whose condition holds, and `valid` when none does. -/
def firstFailure : List (Bool × String) → ValidationResult
  | [] => ⟨true, none⟩
  | (cond, msg) :: rest => if cond then ⟨false, some msg⟩ else firstFailure rest

/-! ## Kill switch (risk-engine/engine/kill_switch.py) -/

/-- `KillSwitchTrigger` enum. -/
inductive KillSwitchTrigger where
  | manual
  | max_drawdown
  | daily_loss
  | exchange_error
  | position_liquidation
  | abnormal_volatility
  | connection_loss
  | system_error
deriving DecidableEq

/-- `KillSwitchEvent` dataclass (`timestamp` and `auto_reset_at` wall-clock
fields omitted; no verified property reads them). -/
structure KillSwitchEvent where
  trigger : KillSwitchTrigger
  reason : String
  affected_bots : List String
deriving DecidableEq

/-- Mutable state of `KillSwitch.__init__`. -/
structure KillSwitch where
  is_active : Bool := false
  events : List KillSwitchEvent := []
  affected_bots : List String := []
deriving DecidableEq

/-- `KillSwitch.activate`. -/
def KillSwitch.activate (ks : KillSwitch) (trigger : KillSwitchTrigger)
    (reason : String) (bot_ids : Option (List String) := none) :
    KillSwitch × KillSwitchEvent :=
  let affected := bot_ids.getD []
  let event : KillSwitchEvent :=
    { trigger := trigger, reason := reason, affected_bots := affected }
  ({ ks with is_active := true, affected_bots := affected,
             events := ks.events ++ [event] }, event)

/-- `KillSwitch.deactivate`. `if not confirmation_code: raise ValueError` —
Python falsiness of an optional string: `None` or the empty string. The
raise precedes every mutation, so the error case returns no new state. -/
def KillSwitch.deactivate (ks : KillSwitch)
    (confirmation_code : Option String := none) : Except String KillSwitch :=
  if confirmation_code.getD "" = "" then
    Except.error "Confirmation required to reset kill switch"
  else
    Except.ok { ks with is_active := false, affected_bots := [] }

/-- `KillSwitch.check_conditions` (message text keeps the skeleton of the
source f-strings, without the `:.2f` float formatting). -/
def KillSwitch.check_conditions (ks : KillSwitch)
    (current_drawdown max_drawdown daily_loss max_daily_loss : ℚ)
    (exchange_healthy : Bool := true) : KillSwitch × Option KillSwitchEvent :=
  if ks.is_active then (ks, none)
  else if current_drawdown ≥ max_drawdown then
    let r := ks.activate .max_drawdown
      ("Drawdown " ++ toString current_drawdown ++ "% exceeded limit "
        ++ toString max_drawdown ++ "%")
    (r.fst, some r.snd)
  else if daily_loss ≥ max_daily_loss then
    let r := ks.activate .daily_loss
      ("Daily loss " ++ toString daily_loss ++ "% exceeded limit "
        ++ toString max_daily_loss ++ "%")
    (r.fst, some r.snd)
  else if !exchange_healthy then
    let r := ks.activate .exchange_error "Exchange connection unhealthy"
    (r.fst, some r.snd)
  else (ks, none)

/-- Combined risk state: one engine instance and its kill switch. -/
structure RiskSystem where
  kill_switch : KillSwitch := {}
  engine : RiskEngine := {}
deriving DecidableEq

/-- Modelled from the spec: the signal-to-order pipeline (spec §4.4/§4.5) is
not among the sources; it is the component that consumes the
`risk.kill_switch` event published on activation and "refuses every
validation while latched", i.e. it latches the risk engine so that
`validate_order` rejects every order. This glue runs
`KillSwitch.check_conditions` and, when an activation event is produced,
triggers the engine kill switch with the event's reason. -/
def RiskSystem.check_conditions (sys : RiskSystem)
    (current_drawdown max_drawdown daily_loss max_daily_loss : ℚ)
    (exchange_healthy : Bool := true) : RiskSystem × Option KillSwitchEvent :=
  let r := sys.kill_switch.check_conditions current_drawdown max_drawdown
      daily_loss max_daily_loss exchange_healthy
  match r.snd with
  | some ev =>
      ({ kill_switch := r.fst, engine := sys.engine.trigger_kill_switch ev.reason },
        some ev)
  | none => ({ sys with kill_switch := r.fst }, none)

/-! ## Strategy signals (strategy-engine/engine/strategies/base.py) -/

/-- `SignalType` enum. -/
inductive SignalType where
  | buy
  | sell
  | close_long
  | close_short
  | hold
deriving DecidableEq

/-- `Signal` dataclass. The free-form `indicators` dict, the optional
`stop_loss`/`take_profit` hints and the wall-clock `timestamp` are omitted;
no verified property reads them. -/
structure Signal where
  type : SignalType
  symbol : String
  price : ℚ
  quantity : Option ℚ := none
  confidence : ℚ := 1
  reason : String := ""
deriving DecidableEq

/-! ## Grid strategy (strategy-engine/engine/strategies/grid.py) -/

/-- `GridLevel` dataclass (`order_id` omitted; the source never assigns it). -/
structure GridLevel where
  price : ℚ
  is_buy : Bool
  is_filled : Bool := false
deriving DecidableEq

/-- State of a `GridStrategy` instance (parameters and mutable state). -/
structure GridStrategy where
  symbol : String
  upper_price : ℚ
  lower_price : ℚ
  grid_count : Nat
  order_size : ℚ
  trigger_price : Option ℚ := none
  grid_levels : List GridLevel := []
  is_active : Bool := false
  total_profit : ℚ := 0
  current_price : ℚ := 0
deriving DecidableEq

/-- `GridStrategy._build_grid`, arithmetic grid type (the default). The
geometric branch computes the float power `(upper/lower) ** (1/grid_count)`;
floating-point exponentiation is outside this embedding and no verified
property uses it. Every level is created with `is_buy = True`. -/
def GridStrategy.build_grid (g : GridStrategy) : GridStrategy :=
  let step := (g.upper_price - g.lower_price) / g.grid_count
  let levels := (List.range (g.grid_count + 1)).map
    (fun i => ({ price := g.lower_price + i * step, is_buy := true } : GridLevel))
  { g with grid_levels := levels }

/-- The level loop of `GridStrategy.on_tick`: skip filled levels; on the
first unfilled level, a buy level with `price ≤ level.price` fills and flips
to sell and returns a BUY signal, a sell level with `price ≥ level.price`
unfills and flips to buy and returns a SELL signal; otherwise continue. -/
def gridScan (symbol : String) (order_size price : ℚ) :
    List GridLevel → List GridLevel × Option Signal
  | [] => ([], none)
  | l :: rest =>
    if l.is_filled then
      let r := gridScan symbol order_size price rest
      (l :: r.fst, r.snd)
    else if l.is_buy ∧ price ≤ l.price then
      ({ l with is_filled := true, is_buy := false } :: rest,
        some { type := .buy, symbol := symbol, price := l.price,
               quantity := some order_size,
               reason := "Grid buy at " ++ toString l.price })
    else if ¬ l.is_buy ∧ price ≥ l.price then
      ({ l with is_filled := false, is_buy := true } :: rest,
        some { type := .sell, symbol := symbol, price := l.price,
               quantity := some order_size,
               reason := "Grid sell at " ++ toString l.price })
    else
      let r := gridScan symbol order_size price rest
      (l :: r.fst, r.snd)

/-- Range check and level loop of `on_tick`, after trigger handling. -/
def gridBody (g : GridStrategy) (price : ℚ) : GridStrategy × Option Signal :=
  if price > g.upper_price ∨ price < g.lower_price then (g, none)
  else
    let r := gridScan g.symbol g.order_size price g.grid_levels
    ({ g with grid_levels := r.fst }, r.snd)

/-- `GridStrategy.on_tick`. `tick.get("price", 0)` followed by
`if not price: return None` makes a missing or zero price a no-op, so the
tick is modelled by its price with 0 as the absent value. `if
self.trigger_price and not self.is_active:` tests Python truthiness of the
optional trigger price (`None` and `0.0` are falsy). -/
def GridStrategy.on_tick (g0 : GridStrategy) (price : ℚ) :
    GridStrategy × Option Signal :=
  if price = 0 then (g0, none)
  else
    let g := { g0 with current_price := price }
    if g.trigger_price.getD 0 ≠ 0 ∧ g.is_active = false then
      if price ≥ g.trigger_price.getD 0 then
        gridBody { g with is_active := true } price
      else (g, none)
    else
      gridBody { g with is_active := true } price

/-- Feed a sequence of ticks to a grid strategy, collecting the emitted
signals in order. -/
def GridStrategy.run (g : GridStrategy) : List ℚ → GridStrategy × List Signal
  | [] => (g, [])
  | t :: ts =>
    let r := g.on_tick t
    let rest := r.fst.run ts
    (rest.fst, r.snd.toList ++ rest.snd)

/-! ## DCA strategy (strategy-engine/engine/strategies/dca.py) -/

/-- `SafetyOrder` dataclass. -/
structure SafetyOrder where
  order_num : Nat
  deviation_percent : ℚ
  size : ℚ
  trigger_price : ℚ := 0
  is_filled : Bool := false
deriving DecidableEq

/-- State of a `DCAStrategy` instance (parameters and mutable state). -/
structure DCAStrategy where
  symbol : String
  base_order_size : ℚ
  safety_order_size : ℚ
  max_safety_orders : Nat := 5
  price_deviation : ℚ := 1
  step_scale : ℚ := 1
  volume_scale : ℚ := 1
  take_profit_pct : ℚ := 3/2
  stop_loss_pct : Option ℚ := none
  safety_orders : List SafetyOrder := []
  base_order_filled : Bool := false
  average_entry : ℚ := 0
  total_quantity : ℚ := 0
  total_invested : ℚ := 0
  current_price : ℚ := 0
  entry_price : ℚ := 0
deriving DecidableEq

/-- The ladder loop of `_build_safety_orders`: `current_deviation` starts at
`price_deviation` and grows by `price_deviation * step_scale` each step;
`current_size` starts at `safety_order_size` and is multiplied by
`volume_scale` each step. -/
def safetyLadder (stepAdd vol_scale : ℚ) :
    Nat → Nat → ℚ → ℚ → List SafetyOrder
  | 0, _, _, _ => []
  | n + 1, i, dev, size =>
      { order_num := i + 1, deviation_percent := dev, size := size } ::
        safetyLadder stepAdd vol_scale n (i + 1) (dev + stepAdd) (size * vol_scale)

/-- `DCAStrategy._build_safety_orders`. -/
def DCAStrategy.build_safety_orders (d : DCAStrategy) : DCAStrategy :=
  let ladder := safetyLadder (d.price_deviation * d.step_scale) d.volume_scale
    d.max_safety_orders 0 d.price_deviation d.safety_order_size
  { d with safety_orders := ladder }

/-- `DCAStrategy._update_safety_triggers`. -/
def DCAStrategy.update_safety_triggers (d : DCAStrategy) (entry_price : ℚ) :
    DCAStrategy :=
  let sos := d.safety_orders.map
    (fun so => { so with trigger_price :=
      entry_price * (1 - so.deviation_percent / 100) })
  { d with safety_orders := sos }

/-- The safety-order loop of `DCAStrategy.on_tick`: the first unfilled
safety order whose trigger price is reached fills and emits its buy. -/
def safetyScan (symbol : String) (price : ℚ) :
    List SafetyOrder → List SafetyOrder × Option Signal
  | [] => ([], none)
  | so :: rest =>
    if so.is_filled then
      let r := safetyScan symbol price rest
      (so :: r.fst, r.snd)
    else if price ≤ so.trigger_price then
      ({ so with is_filled := true } :: rest,
        some { type := .buy, symbol := symbol, price := price,
               quantity := some so.size,
               reason := "Safety order #" ++ toString so.order_num })
    else
      let r := safetyScan symbol price rest
      (so :: r.fst, r.snd)

/-- `DCAStrategy.on_tick`. A zero price models the falsy
`tick.get("price", 0)` no-op. `if self.stop_loss_pct and …` tests Python
truthiness of the optional stop-loss percent (`None` and `0` are falsy). -/
def DCAStrategy.on_tick (d0 : DCAStrategy) (price : ℚ) :
    DCAStrategy × Option Signal :=
  if price = 0 then (d0, none)
  else
    let d := { d0 with current_price := price }
    if d.base_order_filled = false then
      let d := DCAStrategy.update_safety_triggers
        { d with base_order_filled := true, entry_price := price } price
      (d, some { type := .buy, symbol := d.symbol, price := price,
                 quantity := some d.base_order_size,
                 reason := "DCA base order" })
    else
      let tpBranch :=
        if d.total_quantity > 0 then
          let pnl_percent := (price - d.average_entry) / d.average_entry * 100
          if pnl_percent ≥ d.take_profit_pct then
            some (d, some { type := .sell, symbol := d.symbol, price := price,
                            quantity := some d.total_quantity,
                            reason := "Take profit at " ++ toString pnl_percent ++ "%" })
          else if d.stop_loss_pct.getD 0 ≠ 0 ∧ pnl_percent ≤ -(d.stop_loss_pct.getD 0) then
            some (d, some { type := .sell, symbol := d.symbol, price := price,
                            quantity := some d.total_quantity,
                            reason := "Stop loss at " ++ toString pnl_percent ++ "%" })
          else none
        else none
      match tpBranch with
      | some r => r
      | none =>
        let r := safetyScan d.symbol price d.safety_orders
        ({ d with safety_orders := r.fst }, r.snd)

/-- `DCAStrategy.on_order_filled`. In `ℚ` the division is total; Python
raises ZeroDivisionError when the running quantity is zero, a case no
verified property evaluates. -/
def DCAStrategy.on_order_filled (d : DCAStrategy) (quantity price : ℚ) :
    DCAStrategy :=
  let tq := d.total_quantity + quantity
  let ti := d.total_invested + quantity * price
  { d with total_quantity := tq, total_invested := ti, average_entry := ti / tq }

/-! ## Order model and order service (backend/app/models/order.py,
backend/app/services/order_service.py) -/

/-- `OrderStatus` enum. `open` and `partial` are reserved words in Lean, so
the constructors carry a trailing underscore; `statusValue` recovers the
Python string values. -/
inductive OrderStatus where
  | pending
  | submitted
  | open_
  | partial_
  | filled
  | cancelled
  | rejected
  | expired
deriving DecidableEq

/-- `.value` of an `OrderStatus` member. -/
def statusValue : OrderStatus → String
  | .pending => "pending"
  | .submitted => "submitted"
  | .open_ => "open"
  | .partial_ => "partial"
  | .filled => "filled"
  | .cancelled => "cancelled"
  | .rejected => "rejected"
  | .expired => "expired"

/-- The columns of `Order` that the cancellation path reads or writes.
The remaining columns (symbol, side, quantities, prices, fees, …) are
untouched by `cancel_order` and omitted here. `cancelled_at` stores a
wall-clock time, modelled as `Nat`. -/
structure Order where
  id : String
  exchange_order_id : Option String := none
  status : OrderStatus := .pending
  cancelled_at : Option Nat := none
deriving DecidableEq

/-- `Order.is_open` property: status in (OPEN, PARTIAL, SUBMITTED). -/
def Order.is_open (o : Order) : Bool :=
  o.status = .open_ ∨ o.status = .partial_ ∨ o.status = .submitted

/-- Exception classes distinguished by the verified properties. The order
service raises the Python builtin `ValueError`; the backend also defines an
`InvalidOrderError` class (`backend/app/core/exceptions.py`) that
`cancel_order` does not raise. -/
inductive PyError where
  | valueError (msg : String)
  | invalidOrderError (msg : String)
deriving DecidableEq

/-- The `ORDER_CANCELLED` event payload emitted by `cancel_order`. -/
structure OrderCancelledEvent where
  order_id : String
  exchange_order_id : Option String
deriving DecidableEq

/-- `OrderService.cancel_order`. The raise precedes every mutation, so the
error case returns no new state; on success the order moves to `cancelled`,
`cancelled_at` is stamped and the cancellation event is emitted. -/
def OrderService.cancel_order (o : Order) (now : Nat) :
    Except PyError (Order × OrderCancelledEvent) :=
  if ¬ o.is_open then
    Except.error (PyError.valueError
      ("Cannot cancel order with status: " ++ statusValue o.status))
  else
    let o := { o with status := .cancelled, cancelled_at := some now }
    Except.ok (o, { order_id := o.id, exchange_order_id := o.exchange_order_id })

/-- Whether a `cancel_order` outcome is an `InvalidOrderError`. -/
def isInvalidOrderError : Except PyError (Order × OrderCancelledEvent) → Bool
  | .error (.invalidOrderError _) => true
  | _ => false

/-! ## Event bus (strategy-engine/engine/event_bus.py) -/

/-- `EventBus._matches`: an exact pattern must equal the channel; a pattern
with `*` matches when the channel starts with the part before the first
`*` (`pattern.split("*")[0]`). -/
def busMatches (channel pattern : String) : Bool :=
  if ¬ pattern.contains '*' then channel = pattern
  else ((pattern.splitOn "*").headD "").isPrefixOf channel

/-- The inner handler loop of `EventBus._handle_message` for one matching
pattern. Handlers are identified by `Nat` ids; `behavior` gives the outcome
of invoking a handler on the message being delivered (`.error` models the
handler raising). Each call sits in `try/except: pass`, so the outcome is
recorded and iteration continues regardless of it. -/
def runHandlers (behavior : Nat → Except String Unit) :
    List Nat → List (Nat × Except String Unit)
  | [] => []
  | h :: rest => (h, behavior h) :: runHandlers behavior rest

/-- `EventBus._handle_message`: walk the subscription table in insertion
order; for every pattern matching the incoming channel (which carries the
`xor:` prefix added by `publish`), invoke all its handlers. The returned
list records each invocation and its outcome; the function is total — no
handler outcome escapes the dispatch. -/
def EventBus.handle_message (behavior : Nat → Except String Unit)
    (handlers : List (String × List Nat)) (channel : String) :
    List (Nat × Except String Unit) :=
  match handlers with
  | [] => []
  | (pattern, hs) :: rest =>
      (if busMatches channel ("xor:" ++ pattern) then runHandlers behavior hs
       else []) ++ EventBus.handle_message behavior rest channel

/-- The handlers whose subscription pattern matches the topic, in table
order — the set the spec says must all be invoked. -/
def matchingHandlers (handlers : List (String × List Nat)) (channel : String) :
    List Nat :=
  match handlers with
  | [] => []
  | (pattern, hs) :: rest =>
      (if busMatches channel ("xor:" ++ pattern) then hs else [])
        ++ matchingHandlers rest channel

/-! ## Theorems -/

/-- `validate_order` agrees with the spec-side first-failure composition of
the six ordered checks, for every engine state and every argument. -/
theorem validate_order_eq_firstFailure (s : RiskEngine) (symbol side : String)
    (q p lev pv : ℚ) :
    s.validate_order symbol side q p lev pv
      = firstFailure (specValidationChecks s symbol q p lev pv) := by
  simp only [RiskEngine.validate_order, specValidationChecks, firstFailure,
    decide_eq_true_eq, Bool.and_eq_true, Bool.not_eq_true, Bool.not_eq_true']

/-- C1: `validate_order` evaluates the risk checks in the fixed order
kill-switch, leverage, position size, open-positions count, daily loss,
drawdown, and returns the rejection of the first failing check (valid when
none fails); and with `max_position_size_percent = 5` and portfolio value
10000, every order with `quantity × price = 600` (leverage within the
default limit, fresh engine) is rejected with a reason that starts with
"Position size". -/
theorem C1_validate_order_fixed_order_and_position_size :
    (∀ (s : RiskEngine) (symbol side : String) (q p lev pv : ℚ),
      s.validate_order symbol side q p lev pv
        = firstFailure (specValidationChecks s symbol q p lev pv))
    ∧ (∀ (symbol side : String) (q p lev : ℚ), q * p = 600 → lev ≤ 10 →
      (RiskEngine.validate_order { limits := { max_position_size_percent := 5 } }
          symbol side q p lev 10000).valid = false
      ∧ ∃ t, (RiskEngine.validate_order { limits := { max_position_size_percent := 5 } }
          symbol side q p lev 10000).reason = some ("Position size " ++ t)) := by
  constructor
  · exact validate_order_eq_firstFailure
  · intro symbol side q p lev hqp hlev
    have h1 : ¬ lev > (10:ℚ) := not_lt.mpr hlev
    norm_num [RiskEngine.validate_order, hqp, h1]
    exact ⟨toString ((6:ℚ)) ++ ("% exceeds max " ++ (toString ((5:ℚ)) ++ "%")),
      by simp [String.append_assoc]⟩

/-- Witness for C1 at quantity 6, price 100, leverage 1. -/
theorem C1_witness :
    (6:ℚ) * 100 = 600 ∧ (1:ℚ) ≤ 10 ∧
    ((RiskEngine.validate_order { limits := { max_position_size_percent := 5 } }
        "BTCUSDT" "buy" 6 100 1 10000).valid = false
      ∧ ∃ t, (RiskEngine.validate_order { limits := { max_position_size_percent := 5 } }
          "BTCUSDT" "buy" 6 100 1 10000).reason = some ("Position size " ++ t)) :=
  ⟨by norm_num, by norm_num,
    C1_validate_order_fixed_order_and_position_size.2 "BTCUSDT" "buy" 6 100 1
      (by norm_num) (by norm_num)⟩

/-- No public operation other than `reset_kill_switch` clears `is_killed`. -/
theorem step_preserves_is_killed (s : RiskEngine) (op : RiskOp)
    (hop : op ≠ RiskOp.resetKillSwitch) (h : s.is_killed = true) :
    (s.step op).is_killed = true := by
  cases op with
  | validateOrder a b c d e f => exact h
  | updatePosition a b c d e f =>
      unfold RiskEngine.step RiskEngine.update_position
      dsimp only
      split <;> exact h
  | calculatePortfolioRisk e =>
      unfold RiskEngine.step RiskEngine.calculate_portfolio_risk
      dsimp only
      split <;> exact h
  | resetDailyTracking e t => exact h
  | triggerKillSwitch r => rfl
  | resetKillSwitch => exact absurd rfl hop

/-- `is_killed` survives any sequence of public operations that does not
contain `reset_kill_switch`. -/
theorem run_preserves_is_killed (s : RiskEngine) (ops : List RiskOp)
    (hops : ∀ op ∈ ops, op ≠ RiskOp.resetKillSwitch) (h : s.is_killed = true) :
    (s.run ops).is_killed = true := by
  induction ops generalizing s with
  | nil => exact h
  | cons op rest ih =>
      exact ih (s.step op) (fun o ho => hops o (List.mem_cons_of_mem _ ho))
        (step_preserves_is_killed s op (hops op (List.mem_cons_self _ _)) h)

/-- On a latched engine every `validate_order` call is rejected with a
kill-switch reason. -/
theorem validate_order_killed (s : RiskEngine) (h : s.is_killed = true)
    (symbol side : String) (q p lev pv : ℚ) :
    (s.validate_order symbol side q p lev pv).valid = false ∧
    ∃ t, (s.validate_order symbol side q p lev pv).reason
        = some ("Kill switch active: " ++ t) := by
  simp [RiskEngine.validate_order, h]

/-- C2: once the kill switch is latched (`is_killed = true`), every
subsequent `validate_order` call, for all argument values and after any
sequence of public operations not containing the explicit reset, returns
`valid = false` with a kill-switch reason; the explicit
`reset_kill_switch` (the engine's deactivate entry point) is the only
operation that clears the latch, and it does clear it. -/
theorem C2_kill_switch_latching (s : RiskEngine) (ops : List RiskOp)
    (symbol side : String) (q p lev pv : ℚ)
    (hkilled : s.is_killed = true)
    (hops : ∀ op ∈ ops, op ≠ RiskOp.resetKillSwitch) :
    (s.run ops).is_killed = true
    ∧ ((s.run ops).validate_order symbol side q p lev pv).valid = false
    ∧ (∃ t, ((s.run ops).validate_order symbol side q p lev pv).reason
        = some ("Kill switch active: " ++ t))
    ∧ ((s.run ops).reset_kill_switch).is_killed = false := by
  have hk := run_preserves_is_killed s ops hops hkilled
  have hv := validate_order_killed (s.run ops) hk symbol side q p lev pv
  exact ⟨hk, hv.1, hv.2, rfl⟩

/-- A latched engine for the C2 witness. -/
def killedEngine : RiskEngine :=
  { is_killed := true, kill_reason := some "manual stop" }

/-- A reset-free operation sequence for the C2 witness. -/
def c2Ops : List RiskOp :=
  [ .updatePosition "BTCUSDT" "long" 1 100 110 1,
    .calculatePortfolioRisk 5000,
    .triggerKillSwitch "drawdown breach",
    .resetDailyTracking 5000 20250101,
    .validateOrder "ETHUSDT" "buy" 1 10 1 1000 ]

/-- Witness for C2 on `killedEngine` across `c2Ops`. -/
theorem C2_witness :
    killedEngine.is_killed = true
    ∧ (∀ op ∈ c2Ops, op ≠ RiskOp.resetKillSwitch)
    ∧ ((killedEngine.run c2Ops).is_killed = true
      ∧ ((killedEngine.run c2Ops).validate_order "SOLUSDT" "sell" 2 30 1 900).valid = false
      ∧ (∃ t, ((killedEngine.run c2Ops).validate_order "SOLUSDT" "sell" 2 30 1 900).reason
          = some ("Kill switch active: " ++ t))
      ∧ ((killedEngine.run c2Ops).reset_kill_switch).is_killed = false) := by
  have hops : ∀ op ∈ c2Ops, op ≠ RiskOp.resetKillSwitch := by
    intro op hop
    simp only [c2Ops, List.mem_cons, List.not_mem_nil, or_false] at hop
    rcases hop with rfl | rfl | rfl | rfl | rfl <;> simp
  exact ⟨rfl, hops,
    C2_kill_switch_latching killedEngine c2Ops "SOLUSDT" "sell" 2 30 1 900 rfl hops⟩

/-- C3: with peak equity 10000 and current equity 8900 the drawdown is
`(10000 − 8900)/10000 × 100 = 11` percent; `check_conditions` on an inactive
kill switch with `max_drawdown = 10` returns an activation event with
trigger `max_drawdown` and sets `is_active`, and (through the spec-modelled
pipeline propagation) every subsequent `validate_order` on the system's
engine returns `valid = false`. -/
theorem C3_drawdown_activates_and_blocks (sys : RiskSystem)
    (symbol side : String) (q p lev pv : ℚ)
    (h : sys.kill_switch.is_active = false) :
    ((sys.check_conditions ((10000 - 8900) / 10000 * 100) 10 0 3 true).snd.map
        KillSwitchEvent.trigger = some KillSwitchTrigger.max_drawdown)
    ∧ (sys.check_conditions ((10000 - 8900) / 10000 * 100) 10 0 3 true).fst.kill_switch.is_active
        = true
    ∧ ((sys.check_conditions ((10000 - 8900) / 10000 * 100) 10 0 3
          true).fst.engine.validate_order symbol side q p lev pv).valid = false := by
  have h11 : ((10000 - 8900) / 10000 * 100 : ℚ) = 11 := by norm_num
  have h110 : ((11:ℚ) ≥ 10) := by norm_num
  simp only [RiskSystem.check_conditions, KillSwitch.check_conditions, h, h11,
    Bool.false_eq_true, if_false, if_pos h110, KillSwitch.activate]
  refine ⟨?_, ?_, ?_⟩
  · simp
  · trivial
  · exact (validate_order_killed _ rfl symbol side q p lev pv).1

/-- Witness for C3 on a fresh system. -/
theorem C3_witness :
    (({} : RiskSystem).kill_switch.is_active = false)
    ∧ (((({} : RiskSystem).check_conditions ((10000 - 8900) / 10000 * 100) 10 0 3 true).snd.map
        KillSwitchEvent.trigger = some KillSwitchTrigger.max_drawdown)
      ∧ (({} : RiskSystem).check_conditions ((10000 - 8900) / 10000 * 100) 10 0 3
          true).fst.kill_switch.is_active = true
      ∧ ((({} : RiskSystem).check_conditions ((10000 - 8900) / 10000 * 100) 10 0 3
            true).fst.engine.validate_order "BTCUSDT" "buy" 1 100 1 9999999).valid = false) :=
  ⟨rfl, C3_drawdown_activates_and_blocks {} "BTCUSDT" "buy" 1 100 1 9999999 rfl⟩

/-- The spec's grid scenario: `upper=110, lower=100, grid_count=10,
order_size=1` after `initialize` (`_build_grid`). -/
def c4Grid : GridStrategy :=
  GridStrategy.build_grid
    { symbol := "BTCUSDT", upper_price := 110, lower_price := 100,
      grid_count := 10, order_size := 1 }

/-- C4 (evaluation at the spec's failing input): on the tick sequence
`100, 101, 102, 99, 101, 103, 108, 110` the grid emits
BUY@100, BUY@101, BUY@102, BUY@103, BUY@104, BUY@108, BUY@110 — no SELL is
ever emitted (a filled buy level is skipped by the `is_filled` guard before
the sell branch can see it), where the claim and spec expect
BUY@100, BUY@101, BUY@102, SELL@101, SELL@102. -/
theorem C4_grid_scenario_emits_only_buys :
    (c4Grid.run [100, 101, 102, 99, 101, 103, 108, 110]).snd.map
      (fun s => (s.type, s.price))
    = [(.buy, 100), (.buy, 101), (.buy, 102), (.buy, 103), (.buy, 104),
       (.buy, 108), (.buy, 110)] := by
  norm_num [c4Grid, GridStrategy.build_grid, List.range_succ,
    GridStrategy.run, GridStrategy.on_tick, gridBody, gridScan]

/-- Every operation of the risk engine leaves `peak_equity` at least as
large as before (only `calculate_portfolio_risk` writes it, and only
upward). -/
theorem step_peak_equity_mono (s : RiskEngine) (op : RiskOp) :
    s.peak_equity ≤ (s.step op).peak_equity := by
  cases op with
  | validateOrder a b c d e f => exact le_refl _
  | updatePosition a b c d e f =>
      unfold RiskEngine.step RiskEngine.update_position
      dsimp only
      split <;> exact le_refl _
  | calculatePortfolioRisk e =>
      unfold RiskEngine.step RiskEngine.calculate_portfolio_risk
      dsimp only
      split
      · exact le_of_lt (by assumption)
      · exact le_refl _
  | resetDailyTracking e t => exact le_refl _
  | triggerKillSwitch r => exact le_refl _
  | resetKillSwitch => exact le_refl _

/-- C7: `peak_equity` is monotonically non-decreasing across every sequence
of the public risk-engine operations. -/
theorem C7_peak_equity_monotone (s : RiskEngine) (ops : List RiskOp) :
    s.peak_equity ≤ (s.run ops).peak_equity := by
  induction ops generalizing s with
  | nil => exact le_refl _
  | cons op rest ih => exact le_trans (step_peak_equity_mono s op) (ih (s.step op))

/-- C9: with `portfolio_value = 0` the guarded division makes the
position-size percentage 0, so (with the kill switch inactive, leverage
within the limit, fewer open symbols than the cap, a nonnegative configured
position-size limit as all defaults are, `starting_equity_today = 0` and
`peak_equity = 0`) `validate_order` accepts every order, however large. -/
theorem C9_zero_portfolio_value_accepts (s : RiskEngine)
    (symbol side : String) (q p lev : ℚ)
    (h1 : s.is_killed = false) (h2 : lev ≤ s.limits.max_leverage)
    (h3 : s.positions.length < s.limits.max_open_positions)
    (h4 : s.starting_equity_today = 0) (h5 : s.peak_equity = 0)
    (h6 : 0 ≤ s.limits.max_position_size_percent) :
    s.validate_order symbol side q p lev 0 = ⟨true, none⟩ := by
  simp [RiskEngine.validate_order, RiskEngine.check_daily_loss_exceeded,
    RiskEngine.check_max_drawdown_exceeded, h1, h4, h5,
    not_lt.mpr h2, not_lt.mpr h6, not_le.mpr h3]

/-- Witness for C9 on a fresh engine and an astronomically large order. -/
theorem C9_witness :
    ({} : RiskEngine).is_killed = false
    ∧ (1:ℚ) ≤ ({} : RiskEngine).limits.max_leverage
    ∧ ({} : RiskEngine).positions.length < ({} : RiskEngine).limits.max_open_positions
    ∧ ({} : RiskEngine).starting_equity_today = 0
    ∧ ({} : RiskEngine).peak_equity = 0
    ∧ (0:ℚ) ≤ ({} : RiskEngine).limits.max_position_size_percent
    ∧ RiskEngine.validate_order {} "BTCUSDT" "buy" 1000000000 1000000000 1 0
        = ⟨true, none⟩ :=
  ⟨rfl, by norm_num, by norm_num, rfl, rfl, by norm_num,
    C9_zero_portfolio_value_accepts {} "BTCUSDT" "buy" 1000000000 1000000000 1
      rfl (by norm_num) (by norm_num) rfl rfl (by norm_num)⟩

/-- C10: `KillSwitch.deactivate` raises `ValueError` (leaving the state
unchanged — the raise precedes every assignment) exactly when the
confirmation code is `None` or empty; any non-empty string deactivates the
switch and clears `affected_bots`, the code never being compared against a
stored value. -/
theorem C10_deactivate_requires_nonempty_code (ks : KillSwitch) (code : String)
    (hc : code ≠ "") :
    ks.deactivate none = Except.error "Confirmation required to reset kill switch"
    ∧ ks.deactivate (some "") = Except.error "Confirmation required to reset kill switch"
    ∧ ks.deactivate (some code)
        = Except.ok { ks with is_active := false, affected_bots := [] } := by
  refine ⟨rfl, rfl, ?_⟩
  simp [KillSwitch.deactivate, hc]

/-- Witness for C10 on an active switch and the code "RESET". -/
theorem C10_witness :
    "RESET" ≠ ""
    ∧ (KillSwitch.deactivate { is_active := true, affected_bots := ["bot-1"] } none
        = Except.error "Confirmation required to reset kill switch"
      ∧ KillSwitch.deactivate { is_active := true, affected_bots := ["bot-1"] } (some "")
        = Except.error "Confirmation required to reset kill switch"
      ∧ KillSwitch.deactivate { is_active := true, affected_bots := ["bot-1"] } (some "RESET")
        = Except.ok { is_active := false, events := [], affected_bots := [] }) :=
  ⟨by decide,
    C10_deactivate_requires_nonempty_code
      { is_active := true, affected_bots := ["bot-1"] } "RESET" (by decide)⟩

/-- After any non-empty sequence of `on_order_filled` calls,
`average_entry = total_invested / total_quantity` (the last call assigns
exactly this quotient). -/
theorem dca_foldl_average_entry (fills : List (ℚ × ℚ)) :
    ∀ d : DCAStrategy, fills ≠ [] →
    (fills.foldl (fun s f => s.on_order_filled f.fst f.snd) d).average_entry
      = (fills.foldl (fun s f => s.on_order_filled f.fst f.snd) d).total_invested
        / (fills.foldl (fun s f => s.on_order_filled f.fst f.snd) d).total_quantity := by
  induction fills with
  | nil => intro d h; exact absurd rfl h
  | cons f rest ih =>
      intro d _
      cases rest with
      | nil => simp [DCAStrategy.on_order_filled]
      | cons g rs =>
          simpa using ih (d.on_order_filled f.fst f.snd) (by simp)

/-- C5 (amended): after the base order and any K ≥ 1 fills processed by
`on_order_filled`, `average_entry = total_invested / total_quantity`; and on
every tick with `total_quantity > 0` whose PnL percentage reaches
`take_profit_percent`, `on_tick` emits a SELL of the entire
`total_quantity` — but the strategy state is NOT reset: the post-tick state
is the pre-tick state with only `current_price` updated (all totals, the
base-order flag and the safety-order fills persist). -/
theorem C5_take_profit_sells_without_reset (d : DCAStrategy)
    (fills : List (ℚ × ℚ)) (price : ℚ)
    (hfills : fills ≠ []) (hprice : price ≠ 0)
    (hbase : d.base_order_filled = true) (hqty : 0 < d.total_quantity)
    (htp : (price - d.average_entry) / d.average_entry * 100 ≥ d.take_profit_pct) :
    ((fills.foldl (fun s f => s.on_order_filled f.fst f.snd) d).average_entry
      = (fills.foldl (fun s f => s.on_order_filled f.fst f.snd) d).total_invested
        / (fills.foldl (fun s f => s.on_order_filled f.fst f.snd) d).total_quantity)
    ∧ d.on_tick price
      = ({ d with current_price := price },
         some { type := .sell, symbol := d.symbol, price := price,
                quantity := some d.total_quantity,
                reason := "Take profit at "
                  ++ toString ((price - d.average_entry) / d.average_entry * 100)
                  ++ "%" }) := by
  refine ⟨dca_foldl_average_entry fills d hfills, ?_⟩
  simp [DCAStrategy.on_tick, hprice, hbase, hqty, htp]

/-- A DCA state equivalent to: base order filled at 100 and processed by
`on_order_filled(1, 100)`, take-profit 1.5 percent. -/
def c5State : DCAStrategy :=
  { symbol := "ETHUSDT", base_order_size := 1, safety_order_size := 1,
    take_profit_pct := 3/2, base_order_filled := true,
    entry_price := 100, average_entry := 100,
    total_quantity := 1, total_invested := 100 }

/-- Witness for C5 (amended) at `c5State`, one fill `(1, 100)` and the
tick 102 (PnL 2 percent ≥ 1.5 percent). -/
theorem C5_witness :
    ([((1:ℚ), (100:ℚ))] ≠ ([] : List (ℚ × ℚ)))
    ∧ (102:ℚ) ≠ 0
    ∧ c5State.base_order_filled = true
    ∧ (0:ℚ) < c5State.total_quantity
    ∧ ((102:ℚ) - c5State.average_entry) / c5State.average_entry * 100
        ≥ c5State.take_profit_pct
    ∧ ((([((1:ℚ), (100:ℚ))].foldl (fun s f => s.on_order_filled f.fst f.snd)
          c5State).average_entry
        = ([((1:ℚ), (100:ℚ))].foldl (fun s f => s.on_order_filled f.fst f.snd)
            c5State).total_invested
          / ([((1:ℚ), (100:ℚ))].foldl (fun s f => s.on_order_filled f.fst f.snd)
              c5State).total_quantity)
      ∧ c5State.on_tick 102
        = ({ c5State with current_price := 102 },
           some { type := .sell, symbol := c5State.symbol, price := 102,
                  quantity := some c5State.total_quantity,
                  reason := "Take profit at "
                    ++ toString (((102:ℚ) - c5State.average_entry)
                        / c5State.average_entry * 100)
                    ++ "%" })) :=
  ⟨by simp, by norm_num, rfl, by norm_num [c5State],
    by norm_num [c5State],
    C5_take_profit_sells_without_reset c5State [((1:ℚ), (100:ℚ))] 102
      (by simp) (by norm_num) rfl (by norm_num [c5State]) (by norm_num [c5State])⟩

/-- The spec's DCA cycle start: base at 100, then `on_order_filled(1, 100)`,
built from `initialize` on fresh parameters. -/
def c5Run : DCAStrategy × Option Signal :=
  let start := DCAStrategy.build_safety_orders
    { symbol := "ETHUSDT", base_order_size := 1, safety_order_size := 1,
      take_profit_pct := 3/2 }
  let afterBase := (start.on_tick 100).fst
  let afterFill := afterBase.on_order_filled 1 100
  afterFill.on_tick 102

/-- C5 counterexample: in the concrete cycle behind `c5Run` the take-profit
tick at 102 emits the SELL of the entire quantity, but the state is not
reset for a new cycle: `total_quantity` is still 1, `total_invested` still
100 and `base_order_filled` still true afterwards — refuting the claim's
"resets the strategy state" at this input. -/
theorem C5_counterexample_no_reset :
    (c5Run.snd.map (fun s => (s.type, s.quantity)) = some (.sell, some 1))
    ∧ c5Run.fst.total_quantity = 1
    ∧ c5Run.fst.total_invested = 100
    ∧ c5Run.fst.base_order_filled = true := by
  norm_num [c5Run, DCAStrategy.on_tick, DCAStrategy.on_order_filled,
    DCAStrategy.build_safety_orders, DCAStrategy.update_safety_triggers,
    safetyLadder, safetyScan]

/-- C6 (amended): `cancel_order` transitions an `open`/`partial` order to
`cancelled` (stamping `cancelled_at` and emitting the cancellation event),
and for every order in a terminal status (filled, cancelled, rejected,
expired) it fails with a `ValueError` — the Python builtin, not the
backend's `InvalidOrderError` class — leaving the order unchanged (the
raise precedes every assignment). -/
theorem C6_cancel_order_transitions (o : Order) (now : Nat) :
    ((o.status = .open_ ∨ o.status = .partial_) →
      OrderService.cancel_order o now
        = Except.ok ({ o with status := .cancelled, cancelled_at := some now },
            { order_id := o.id, exchange_order_id := o.exchange_order_id }))
    ∧ ((o.status = .filled ∨ o.status = .cancelled ∨ o.status = .rejected
          ∨ o.status = .expired) →
      OrderService.cancel_order o now
        = Except.error (PyError.valueError
            ("Cannot cancel order with status: " ++ statusValue o.status))) := by
  constructor
  · rintro (h | h) <;> simp [OrderService.cancel_order, Order.is_open, h]
  · rintro (h | h | h | h) <;> simp [OrderService.cancel_order, Order.is_open, h]

/-- Witness for C6: an open order cancels; a partial one cancels. -/
theorem C6_witness :
    (({ id := "ord-1", status := .open_ } : Order).status = OrderStatus.open_
      ∨ ({ id := "ord-1", status := .open_ } : Order).status = OrderStatus.partial_)
    ∧ OrderService.cancel_order { id := "ord-1", status := .open_ } 42
        = Except.ok ({ id := "ord-1", status := .cancelled, cancelled_at := some 42 },
            { order_id := "ord-1", exchange_order_id := none }) :=
  ⟨Or.inl rfl,
    (C6_cancel_order_transitions { id := "ord-1", status := .open_ } 42).1 (Or.inl rfl)⟩

/-- A filled (terminal) order for the C6 counterexample. -/
def c6FilledOrder : Order :=
  { id := "ord-9", exchange_order_id := some "ex-9", status := .filled }

/-- C6 counterexample: cancelling a filled order raises the Python builtin
`ValueError`, not the backend's `InvalidOrderError` — refuting the claim's
"fails with an InvalidOrder error" at this input. -/
theorem C6_counterexample_valueerror_not_invalidorder :
    OrderService.cancel_order c6FilledOrder 7
      = Except.error (PyError.valueError "Cannot cancel order with status: filled")
    ∧ isInvalidOrderError (OrderService.cancel_order c6FilledOrder 7) = false := by
  constructor
  · simp [OrderService.cancel_order, c6FilledOrder, Order.is_open, statusValue]
  · simp [OrderService.cancel_order, c6FilledOrder, Order.is_open, isInvalidOrderError]

/-- Each handler id in the list is invoked exactly once, whatever the
outcomes are. -/
theorem runHandlers_map_fst (behavior : Nat → Except String Unit)
    (hs : List Nat) : (runHandlers behavior hs).map Prod.fst = hs := by
  induction hs with
  | nil => rfl
  | cons h rest ih => simp [runHandlers, ih]

/-- C8: dispatching one message invokes exactly the handlers of every
matching subscription pattern, in table order, for EVERY behavior function —
in particular a handler whose invocation raises (an `.error` outcome) does
not prevent the invocation of any other handler, and no outcome escapes the
dispatch (its result is the total list of per-handler outcomes, never an
exception). -/
theorem C8_handler_failure_does_not_block (behavior : Nat → Except String Unit)
    (handlers : List (String × List Nat)) (channel : String) :
    (EventBus.handle_message behavior handlers channel).map Prod.fst
      = matchingHandlers handlers channel := by
  induction handlers with
  | nil => rfl
  | cons ph rest ih =>
      obtain ⟨pattern, hs⟩ := ph
      by_cases hm : busMatches channel ("xor:" ++ pattern) = true
      · simp [EventBus.handle_message, matchingHandlers, hm,
          runHandlers_map_fst, ih]
      · simp [EventBus.handle_message, matchingHandlers, hm, ih]
